import Mathlib

/-!
Verification of the schema-grounding and prompt-construction logic of the
DuckQuery application (an in-browser natural-language-to-SQL chat tool).

The development shallowly embeds the TypeScript sources:
- `src/utils/serialization.ts` (BigInt-safe JSON conversion),
- `src/utils/errorHandler.ts` (HTTP status → typed error mapping),
- `src/hooks/useAI.test.ts` (the schema serializer `buildSchemaDescription`,
  the prompt builder `buildUserMessage`, and the `useAI` operations
  `generateSql` / `fixSql` whose text they mirror),
- `src/hooks/useDuckDB.ts` (`refreshSchema`),
- `src/components/chat/SimpleChat.tsx` (`handleSubmit` reply classification).

JavaScript strings are modelled by Lean `String` (a wrapped `List Char`);
JavaScript values that flow through JSON serialization are modelled by the
mutually inductive `JsValue`/`JsList`/`JsFields` below, where `JsFields`
keeps object keys in insertion order, exactly as `Object.entries` and
`JSON.stringify` iterate them.
-/

/-- Character class used by the model of `String.prototype.trim`.  The
ECMAScript definition also trims a handful of exotic Unicode space code
points; the model covers the ASCII whitespace actually produced by the
completion API and the code under study. -/
def isJsWhitespace (c : Char) : Bool :=
  c = ' ' || c = '\n' || c = '\t' || c = '\r' || c = '\x0b' || c = '\x0c'

/-- Model of JavaScript `s.trim()`: drop whitespace from both ends. -/
def jsTrim (s : String) : String :=
  ⟨(((s.data.dropWhile isJsWhitespace).reverse.dropWhile isJsWhitespace).reverse)⟩

/-- Model of JavaScript `s.startsWith(p)`. -/
def strStartsWith (s p : String) : Bool :=
  p.data.isPrefixOf s.data

/-- Model of JavaScript `s.substring(n)` for the ASCII marker lengths used
by the classifier (code-unit and character indices coincide there). -/
def strDrop (s : String) (n : Nat) : String :=
  ⟨s.data.drop n⟩

/-- Model of JavaScript `array.join(sep)`. -/
def joinSep (sep : String) : List String → String
  | [] => ""
  | [x] => x
  | x :: xs => x ++ sep ++ joinSep sep xs

/-- `needle` occurs as a contiguous substring of `hay`. -/
abbrev strContains (hay needle : String) : Prop :=
  needle.data <:+: hay.data

/-- `tl` is a suffix of `hay` (JavaScript `hay.endsWith(tl)`). -/
abbrev strEndsWith (hay tl : String) : Prop :=
  tl.data <:+ hay.data

theorem strData_append (a b : String) : (a ++ b).data = a.data ++ b.data := by
  cases a
  cases b
  rfl

theorem strContains_of_eq {hay needle : String} (pre post : List Char)
    (h : hay.data = pre ++ needle.data ++ post) : strContains hay needle :=
  ⟨pre, post, h.symm⟩

theorem strContains_mono {x n : String} (a b : List Char) (hx : strContains x n) :
    ∀ hay : String, hay.data = a ++ x.data ++ b → strContains hay n := by
  intro hay hh
  rcases hx with ⟨s, t, hst⟩
  refine ⟨a ++ s, t ++ b, ?_⟩
  rw [hh, ← hst]
  simp

/-- An element of a joined list occurs in the join. -/
theorem joinSep_contains (sep : String) :
    ∀ (l : List String) (x : String), x ∈ l → strContains (joinSep sep l) x := by
  intro l
  induction l with
  | nil => intro x hx; cases hx
  | cons y ys ih =>
    intro x hx
    cases ys with
    | nil =>
      rcases List.mem_singleton.mp hx with rfl
      exact ⟨[], [], by simp [joinSep]⟩
    | cons z zs =>
      rcases List.mem_cons.mp hx with rfl | hmem
      · refine ⟨[], (sep ++ joinSep sep (z :: zs)).data, ?_⟩
        show _ = (x ++ sep ++ joinSep sep (z :: zs)).data
        simp [strData_append]
      · rcases ih x hmem with ⟨s, t, hst⟩
        refine ⟨(y ++ sep).data ++ s, t, ?_⟩
        show _ = (y ++ sep ++ joinSep sep (z :: zs)).data
        simp [strData_append, ← hst]

example : jsTrim "  hello \n" = "hello" := by decide
example : strStartsWith "CLARIFY: x" "CLARIFY:" = true := by decide
example : joinSep ", " ["a", "b", "c"] = "a, b, c" := by decide
example : strDrop "CLARIFY: x" 8 = " x" := by decide

/-!
## JavaScript values

`JsValue` models the JavaScript values that DuckDB query results and schema
metadata may hold: `null`, booleans, numbers (the integer-valued doubles
relevant here), strings, `BigInt`s, arrays and plain objects.  `JsList` and
`JsFields` are insertion-ordered spines for arrays and object entries.
-/

mutual

inductive JsValue where
  | vnull : JsValue
  | vbool : Bool → JsValue
  | vnum : Int → JsValue
  | vstr : String → JsValue
  | vbig : Int → JsValue
  | varr : JsList → JsValue
  | vobj : JsFields → JsValue
deriving DecidableEq

inductive JsList where
  | nil : JsList
  | cons : JsValue → JsList → JsList
deriving DecidableEq

inductive JsFields where
  | nil : JsFields
  | cons : String → JsValue → JsFields → JsFields
deriving DecidableEq

end

def JsList.ofList : List JsValue → JsList
  | [] => .nil
  | v :: vs => .cons v (JsList.ofList vs)

/-- `Number.MAX_SAFE_INTEGER`, the largest double whose neighbourhood still
represents every integer exactly. -/
def maxSafeInteger : Nat := 2 ^ 53 - 1

/-- Bit length of `n` computed with explicit fuel, so that it stays
structurally recursive and kernel-evaluable. -/
def bitLenAux : Nat → Nat → Nat
  | 0, _ => 0
  | fuel + 1, n => if n = 0 then 0 else bitLenAux fuel (n / 2) + 1

/-- Bit length of `n`: the least `k` with `n < 2 ^ k`. -/
def bitLen (n : Nat) : Nat := bitLenAux n n

/-- Model of ECMAScript `Number(b)` for a `BigInt` `b`: the IEEE-754 double
nearest to `b` (round to nearest, ties to even), as an exact integer.
Integers of magnitude at most `2^53` are exactly representable, so they are
returned unchanged; larger ones are rounded to 53 significant bits.  (For
magnitudes beyond the double range JavaScript returns `Infinity`; the model
returns the unrounded huge integer instead, which the safe-integer test below
rejects exactly as `Number.isSafeInteger(Infinity)` does.) -/
def jsNumberOfBigInt (b : Int) : Int :=
  if b.natAbs ≤ 2 ^ 53 then b
  else
    let n := b.natAbs
    let e := bitLen n - 53
    let q := n / 2 ^ e
    let r := n % 2 ^ e
    let q2 := if 2 ^ e < 2 * r ∨ (2 * r = 2 ^ e ∧ q % 2 = 1) then q + 1 else q
    if b < 0 then -((q2 * 2 ^ e : Nat) : Int) else ((q2 * 2 ^ e : Nat) : Int)

/-- Model of `Number.isSafeInteger` on integer-valued doubles. -/
def jsIsSafeInteger (x : Int) : Bool :=
  x.natAbs ≤ maxSafeInteger

/-!
`convertBigIntToNumber`, from `src/utils/serialization.ts`:

```ts
export const convertBigIntToNumber = (value: unknown): unknown => {
  if (typeof value === 'bigint') {
    const num = Number(value);
    return Number.isSafeInteger(num) ? num : value.toString();
  }
  if (Array.isArray(value)) { return value.map(convertBigIntToNumber); }
  if (value !== null && typeof value === 'object') {
    return Object.fromEntries(
      Object.entries(value).map(([k, v]) => [k, convertBigIntToNumber(v)]));
  }
  return value;
};
```
-/

mutual

def convertBigIntToNumber : JsValue → JsValue
  | .vbig b =>
    let num := jsNumberOfBigInt b
    if jsIsSafeInteger num then .vnum num else .vstr (toString b)
  | .varr xs => .varr (convertBigIntList xs)
  | .vobj fs => .vobj (convertBigIntFields fs)
  | .vnull => .vnull
  | .vbool b => .vbool b
  | .vnum n => .vnum n
  | .vstr s => .vstr s

def convertBigIntList : JsList → JsList
  | .nil => .nil
  | .cons v vs => .cons (convertBigIntToNumber v) (convertBigIntList vs)

def convertBigIntFields : JsFields → JsFields
  | .nil => .nil
  | .cons k v fs => .cons k (convertBigIntToNumber v) (convertBigIntFields fs)

end

/-- JSON string escaping for the characters that occur in the values under
study (`JSON.stringify` additionally `\uXXXX`-escapes the remaining control
characters, which never occur here). -/
def escapeJsonChar (c : Char) : List Char :=
  if c = '"' then ['\\', '"']
  else if c = '\\' then ['\\', '\\']
  else if c = '\n' then ['\\', 'n']
  else if c = '\r' then ['\\', 'r']
  else if c = '\t' then ['\\', 't']
  else [c]

def escapeJson (s : String) : String :=
  ⟨s.data.flatMap escapeJsonChar⟩

/-!
`JSON.stringify`, restricted to the value domain above.  JavaScript's
`JSON.stringify` THROWS a `TypeError` on a `BigInt`, so the stringifier
returns `Option String`, `none` standing for the thrown error.  Numbers are
integer-valued here and print without a decimal point; object keys print in
insertion order.
-/

mutual

def jsonStringify : JsValue → Option String
  | .vnull => some "null"
  | .vbool true => some "true"
  | .vbool false => some "false"
  | .vnum n => some (toString n)
  | .vstr s => some ("\"" ++ escapeJson s ++ "\"")
  | .vbig _ => none
  | .varr xs => do
    let parts ← jsonStringifyList xs
    pure ("[" ++ joinSep "," parts ++ "]")
  | .vobj fs => do
    let parts ← jsonStringifyFields fs
    pure ("\x7b" ++ joinSep "," parts ++ "\x7d")

def jsonStringifyList : JsList → Option (List String)
  | .nil => some []
  | .cons v vs => do
    let s ← jsonStringify v
    let rest ← jsonStringifyList vs
    pure (s :: rest)

def jsonStringifyFields : JsFields → Option (List String)
  | .nil => some []
  | .cons k v fs => do
    let s ← jsonStringify v
    let rest ← jsonStringifyFields fs
    pure (("\"" ++ escapeJson k ++ "\":" ++ s) :: rest)

end

/-- `safeJsonForApi` from `src/utils/serialization.ts`:
`JSON.stringify(convertBigIntToNumber(obj))`.  The `getD ""` branch is dead
code: after conversion no `BigInt` remains (proved in `jsonStringify_convert_isSome`
below), so the stringifier never fails. -/
def safeJsonForApi (obj : JsValue) : String :=
  (jsonStringify (convertBigIntToNumber obj)).getD ""

example : safeJsonForApi (.varr (.ofList [.vnum 1, .vstr "a"])) = "[1,\"a\"]" := by decide
example : safeJsonForApi (.vobj (.cons "min" (.vnum 1) .nil)) = "\x7b\"min\":1\x7d" := by decide
example : safeJsonForApi (.vbig 9007199254740992) = "\"9007199254740992\"" := by decide
example : safeJsonForApi (.vbig 9007199254740993) = "\"9007199254740993\"" := by decide
example : safeJsonForApi (.vbig 12) = "12" := by decide

/-!
## Schema model

From `src/types.ts`: `ColumnInfo`, `ColumnStats`, `TableSchema`, and
`DatabaseSchema = Record<string, TableSchema>`.  A JavaScript record keeps
its keys in insertion order and `Object.entries` iterates them in that
order, so `DatabaseSchema` is modelled as an association list.  Sample rows
are JavaScript objects (`JsFields`); statistics rows are records built in
`useDuckDB.refreshSchema` with keys in the order
`column, type, min, max, approx_unique, count`.
-/

structure ColumnInfo where
  name : String
  type : String
deriving DecidableEq

structure ColumnStats where
  column : String
  type : String
  min : JsValue
  max : JsValue
  approx_unique : Int
  count : Int
deriving DecidableEq

structure TableSchema where
  columns : List ColumnInfo
  samples : List JsFields
  stats : List ColumnStats
deriving DecidableEq

abbrev DatabaseSchema := List (String × TableSchema)

/-- The JavaScript value a list of sample rows forms (an array of objects),
as passed to `safeJsonForApi(info.samples)`. -/
def samplesJs (samples : List JsFields) : JsValue :=
  .varr (.ofList (samples.map .vobj))

/-- The JavaScript value a `ColumnStats` record forms, keys in the insertion
order used by `useDuckDB.refreshSchema`. -/
def statJs (s : ColumnStats) : JsValue :=
  .vobj (.cons "column" (.vstr s.column)
    (.cons "type" (.vstr s.type)
      (.cons "min" s.min
        (.cons "max" s.max
          (.cons "approx_unique" (.vnum s.approx_unique)
            (.cons "count" (.vnum s.count) .nil))))))

/-- The JavaScript value of a stats array, as passed to
`safeJsonForApi(info.stats)`. -/
def statsJs (stats : List ColumnStats) : JsValue :=
  .varr (.ofList (stats.map statJs))

/-- The `name (TYPE)` rendering of one column — the template
`` `${c.name} (${c.type})` `` shared by every serializer in the source. -/
def columnPair (c : ColumnInfo) : String :=
  c.name ++ " (" ++ c.type ++ ")"

/-!
`buildSchemaDescription` from `src/hooks/useAI.ts` (the copy in
`src/hooks/useAI.test.ts` mirrors it with plain `JSON.stringify`; the hook
itself uses `safeJsonForApi`, embedded here):

```ts
const buildSchemaDescription = (schema: DatabaseSchema, includeDetails = true): string => {
  return Object.entries(schema)
    .map(([table, info]) => {
      const cols = info.columns.map((c) => `${c.name} (${c.type})`).join(', ');
      if (!includeDetails) { return `${table}: ${cols}`; }
      const sampleRows = safeJsonForApi(info.samples);
      const statsInfo = safeJsonForApi(info.stats);
      return `Table "${table}": ${cols}\nSamples: ${sampleRows}\nStats: ${statsInfo}`;
    })
    .join('\n\n');
};
```
-/

def schemaEntryDescription (includeDetails : Bool) (entry : String × TableSchema) : String :=
  let cols := joinSep ", " (entry.2.columns.map columnPair)
  if !includeDetails then entry.1 ++ ": " ++ cols
  else
    "Table \"" ++ entry.1 ++ "\": " ++ cols
      ++ "\nSamples: " ++ safeJsonForApi (samplesJs entry.2.samples)
      ++ "\nStats: " ++ safeJsonForApi (statsJs entry.2.stats)

def buildSchemaDescription (schema : DatabaseSchema) (includeDetails : Bool) : String :=
  joinSep "\n\n" (schema.map (schemaEntryDescription includeDetails))

/-!
`buildUserMessage` from `src/hooks/useAI.test.ts` (mirroring `useAI.ts`):

```ts
const buildUserMessage = (question: string, schema: DatabaseSchema): string => {
  const hasSchema = Object.keys(schema).length > 0;
  if (!hasSchema) { return question; }
  const schemaDesc = buildSchemaDescription(schema);
  return `DATABASE SCHEMA:\n${schemaDesc}\n\nQUESTION: ${question}`;
};
```
-/

def buildUserMessage (question : String) (schema : DatabaseSchema) : String :=
  if schema.length = 0 then question
  else "DATABASE SCHEMA:\n" ++ buildSchemaDescription schema true
    ++ "\n\nQUESTION: " ++ question

/-!
`fixSql` from `src/hooks/useAI.ts` builds its own column-only schema text and
user message:

```ts
const schemaDesc = Object.entries(schema)
  .map(([table, info]) => {
    const cols = info.columns.map((c) => `${c.name} (${c.type})`).join(', ');
    return `Table "${table}": ${cols}`;
  })
  .join('\n');
// user content:
`Database Schema:\n${schemaDesc}\n\nOriginal Natural Language Intent: ${question}\n\nFailing SQL Query:\n${sql}\n\nDuckDB Error Message:\n${error}`
```
-/

def fixSqlEntryDescription (entry : String × TableSchema) : String :=
  "Table \"" ++ entry.1 ++ "\": " ++ joinSep ", " (entry.2.columns.map columnPair)

def fixSqlSchemaDesc (schema : DatabaseSchema) : String :=
  joinSep "\n" (schema.map fixSqlEntryDescription)

def fixSqlUserContent (sql error question : String) (schema : DatabaseSchema) : String :=
  "Database Schema:\n" ++ fixSqlSchemaDesc schema
    ++ "\n\nOriginal Natural Language Intent: " ++ question
    ++ "\n\nFailing SQL Query:\n" ++ sql
    ++ "\n\nDuckDB Error Message:\n" ++ error

example :
    buildSchemaDescription
      [("users", ⟨[⟨"id", "INTEGER"⟩, ⟨"name", "VARCHAR"⟩], [], []⟩)] false
      = "users: id (INTEGER), name (VARCHAR)" := by decide

example :
    buildSchemaDescription
      [("t", ⟨[⟨"c", "INT"⟩], [JsFields.cons "c" (.vnum 1) .nil], []⟩)] true
      = "Table \"t\": c (INT)\nSamples: [\x7b\"c\":1\x7d]\nStats: []" := by decide

example :
    buildUserMessage "q" [("t", ⟨[⟨"c", "INT"⟩], [], []⟩)]
      = "DATABASE SCHEMA:\nTable \"t\": c (INT)\nSamples: []\nStats: []\n\nQUESTION: q" := by
  decide

/-!
## Response classification

`callApi` in `src/hooks/useAI.ts` returns `data.choices[0].message.content.trim()`;
`generateSql` post-processes that with
`result.replace(/```sql\n?|\n?```/g, '')`, and `handleSubmit` in
`src/components/chat/SimpleChat.tsx` then branches:

```ts
if (!sqlQuery || sqlQuery.startsWith('CLARIFY:') || sqlQuery.startsWith('CHAT:')) {
  let content = sqlQuery || "I understand. How can I help you with your data?";
  if (content.startsWith('CLARIFY:')) {
    content = content.substring('CLARIFY:'.length).trim();
  } else if (content.startsWith('CHAT:')) {
    content = content.substring('CHAT:'.length).trim();
  }
  // conversational assistant message, no sql field
  ...
}
// otherwise: assistant message with sql: sqlQuery, sqlExecuted: false
```

`stripFencesAux` models the global regex replacement: the regex engine scans
left to right; at each position it first tries the alternative `` ```sql\n? ``
(the optional newline taken greedily) and then `` \n?``` ``, and on a match
removes it and resumes after the match.  A position starting with a backtick
can only match the first alternative or a bare `` ``` ``; a position starting
with a newline can only match `` \n``` ``.
-/

def stripFencesAux : List Char → List Char
  | '`' :: '`' :: '`' :: 's' :: 'q' :: 'l' :: '\n' :: r2 => stripFencesAux r2
  | '`' :: '`' :: '`' :: 's' :: 'q' :: 'l' :: r2 => stripFencesAux r2
  | '\n' :: '`' :: '`' :: '`' :: r2 => stripFencesAux r2
  | '`' :: '`' :: '`' :: r2 => stripFencesAux r2
  | c :: rest => c :: stripFencesAux rest
  | [] => []

/-- Model of `` s.replace(/```sql\n?|\n?```/g, '') ``. -/
def stripFences (s : String) : String :=
  ⟨stripFencesAux s.data⟩

/-- The string `generateSql` resolves with for a raw completion reply:
`callApi`'s `.trim()` followed by `generateSql`'s fence stripping. -/
def generateSqlOutput (raw : String) : String :=
  stripFences (jsTrim raw)

inductive ReplyKind where
  | SQL : ReplyKind
  | CLARIFY : ReplyKind
  | CHAT : ReplyKind
deriving DecidableEq

/-- The fallback content `handleSubmit` shows for an empty reply. -/
def emptyReplyContent : String := "I understand. How can I help you with your data?"

/-- Kind and displayed/executed payload that `handleSubmit` derives from a
raw completion reply (via `generateSql`): conversational for an empty or
marker-prefixed reply, SQL otherwise. -/
def classifyReply (raw : String) : ReplyKind × String :=
  let s := generateSqlOutput raw
  if s = "" then (.CHAT, emptyReplyContent)
  else if strStartsWith s "CLARIFY:" then (.CLARIFY, jsTrim (strDrop s 8))
  else if strStartsWith s "CHAT:" then (.CHAT, jsTrim (strDrop s 5))
  else (.SQL, s)

/-- The fields of a chat message that `handleSubmit` sets on the assistant
reply (`src/types.ts` `ChatMessage`, without the id/timestamp bookkeeping). -/
structure ChatMessageModel where
  role : String
  content : String
  sql : Option String
  sqlExecuted : Option Bool
deriving DecidableEq

/-- The assistant message `handleSubmit` appends, as a function of the
`generateSql` result `sqlQuery` (SimpleChat.tsx lines 134-165). -/
def assistantMessageFor (sqlQuery : String) : ChatMessageModel :=
  if sqlQuery = "" || strStartsWith sqlQuery "CLARIFY:" || strStartsWith sqlQuery "CHAT:" then
    let content0 := if sqlQuery = "" then emptyReplyContent else sqlQuery
    let content :=
      if strStartsWith content0 "CLARIFY:" then jsTrim (strDrop content0 8)
      else if strStartsWith content0 "CHAT:" then jsTrim (strDrop content0 5)
      else content0
    { role := "assistant", content := content, sql := none, sqlExecuted := none }
  else
    { role := "assistant", content := "Generated SQL query. Click \"Run\" to execute it.",
      sql := some sqlQuery, sqlExecuted := some false }

example : classifyReply "```sql\nSELECT 1\n```" = (.SQL, "SELECT 1") := by decide
example : classifyReply "CLARIFY: which table?" = (.CLARIFY, "which table?") := by decide
example : classifyReply "CHAT: hi there" = (.CHAT, "hi there") := by decide
example : classifyReply "  SELECT 2  " = (.SQL, "SELECT 2") := by decide
example : classifyReply "" = (.CHAT, emptyReplyContent) := by decide
example : (assistantMessageFor "SELECT 1").sql = some "SELECT 1" := by decide
example : (assistantMessageFor "").sql = none := by decide

/-!
## Error handling

`parseApiError` from `src/utils/errorHandler.ts`: a fixed table from HTTP
status codes to `{code, message, recoverable}`, with a generic `API_ERROR`
fallback for any unmapped status.
-/

inductive ErrorCode where
  | AUTH : ErrorCode
  | RATE_LIMIT : ErrorCode
  | BAD_REQUEST : ErrorCode
  | API_ERROR : ErrorCode
  | SQL_ERROR : ErrorCode
  | NETWORK : ErrorCode
  | UNKNOWN : ErrorCode
deriving DecidableEq

structure AppError where
  code : ErrorCode
  message : String
  technical : Option String
  recoverable : Bool
deriving DecidableEq

/-- `HTTP_ERROR_MAP` from `src/utils/errorHandler.ts`. -/
def httpErrorMap (status : Nat) : Option (ErrorCode × String × Bool) :=
  match status with
  | 400 => some (.BAD_REQUEST, "Request format error. Check your input.", false)
  | 401 => some (.AUTH, "Invalid API key. Please check your settings.", true)
  | 403 => some (.AUTH, "Access denied. Check your API key permissions.", true)
  | 429 => some (.RATE_LIMIT, "Too many requests. Please wait and try again.", true)
  | 500 => some (.API_ERROR, "Server error. The service may be temporarily unavailable.", true)
  | 502 => some (.API_ERROR, "Service temporarily unavailable. Please try again.", true)
  | 503 => some (.API_ERROR, "Service unavailable. Please try again later.", true)
  | _ => none

/-- `parseApiError(status, technical?)` from `src/utils/errorHandler.ts`. -/
def parseApiError (status : Nat) (technical : Option String) : AppError :=
  match httpErrorMap status with
  | some (c, m, r) => { code := c, message := m, technical := technical, recoverable := r }
  | none =>
    { code := .API_ERROR, message := "An unexpected error occurred. Please try again.",
      technical := technical, recoverable := true }

example : (parseApiError 404 none).code = .API_ERROR := by decide
example : (parseApiError 400 none).recoverable = false := by decide

/-!
## Schema refresh

`refreshSchema` from `src/hooks/useDuckDB.ts` (lines 69-126).  The DuckDB
connection is modelled as an oracle `Env` giving, for the refresh's four
query shapes, either a result or a thrown error string:

```ts
setSchemaLoading(true);
try {
  const tableResult = await conn.query(`SELECT table_name FROM information_schema.tables ...`);
  const tableNames = tableResult.toArray().map(r => String(r.table_name));
  setTables(tableNames);                 // published before the loop
  const schemaObj: DatabaseSchema = {};
  for (const table of tableNames) {
    const colResult = await conn.query(`DESCRIBE "${table}"`);     // may throw
    const sampleResult = await conn.query(`SELECT * FROM "${table}" LIMIT 5`);
    const statsResult = await conn.query(`SUMMARIZE "${table}"`);
    schemaObj[table] = { columns, samples, stats };
  }
  setSchema(schemaObj);                  // published only after every table succeeded
  await new Promise(resolve => setTimeout(resolve, 50));   // settle delay, not modelled
} catch (err) { console.error('Schema refresh error:', err); }
finally { setSchemaLoading(false); }
```
-/

/-- One row of a `SUMMARIZE "table"` result, with the fields
`refreshSchema` reads. -/
structure SummarizeRow where
  column_name : String
  column_type : String
  min : JsValue
  max : JsValue
  approx_unique : JsValue
  count : JsValue
deriving DecidableEq

/-- Model of JavaScript `Number(v)` for the numeric fields of a summarize
row (DuckDB returns numbers or BigInts there; other shapes are outside the
engine's contract and collapse to 0). -/
def jsToNumber : JsValue → Int
  | .vnum n => n
  | .vbig b => jsNumberOfBigInt b
  | _ => 0

/-- The per-table query results the connection can deliver, each fallible. -/
structure TableQueries where
  describeQ : Except String (List ColumnInfo)
  sampleQ : Except String (List JsFields)
  summarizeQ : Except String (List SummarizeRow)

/-- The connection, as `refreshSchema` consumes it. -/
structure Env where
  listTables : Except String (List String)
  forTable : String → TableQueries

/-- The three pieces of state `useDuckDB` exposes that `refreshSchema`
writes: `tables`, `schema` and `schemaLoading`. -/
structure DuckState where
  tables : List String
  schema : DatabaseSchema
  schemaLoading : Bool
deriving DecidableEq

def mkColumnStats (r : SummarizeRow) : ColumnStats :=
  { column := r.column_name, type := r.column_type,
    min := convertBigIntToNumber r.min, max := convertBigIntToNumber r.max,
    approx_unique := jsToNumber r.approx_unique, count := jsToNumber r.count }

/-- The loop body for one table: `DESCRIBE`, `SELECT ... LIMIT 5` (sample
values run through `convertBigIntToNumber`), `SUMMARIZE`.  The first failing
query aborts the whole refresh. -/
def buildTableSchema (q : TableQueries) : Except String TableSchema := do
  let cols ← q.describeQ
  let sampleRows ← q.sampleQ
  let samples := sampleRows.map convertBigIntFields
  let statsRows ← q.summarizeQ
  pure { columns := cols, samples := samples, stats := statsRows.map mkColumnStats }

/-- The `for (const table of tableNames)` loop assembling `schemaObj` in
discovery order; any per-table failure fails the whole build. -/
def buildSchemaObj (env : Env) : List String → Except String DatabaseSchema
  | [] => .ok []
  | t :: rest => do
    let info ← buildTableSchema (env.forTable t)
    let others ← buildSchemaObj env rest
    .ok ((t, info) :: others)

/-- `refreshSchema` as a state transition: the final values of the exposed
state after the `try`/`catch`/`finally` completes.  `setTables` runs before
the per-table loop, `setSchema` only after it; a thrown error is caught and
only logged.  (The 50 ms settle delay affects timing only, not the final
state.) -/
def refreshSchema (env : Env) (st : DuckState) : DuckState :=
  match env.listTables with
  | .error _ => { st with schemaLoading := false }
  | .ok tableNames =>
    match buildSchemaObj env tableNames with
    | .error _ => { st with tables := tableNames, schemaLoading := false }
    | .ok schemaObj =>
      { st with tables := tableNames, schema := schemaObj, schemaLoading := false }

/-!
## Helper lemmas
-/

theorem strAppend_assoc (a b c : String) : a ++ b ++ c = a ++ (b ++ c) := by
  apply String.ext
  simp [String.data_append]

example : strContains "a, b (INT), c" "b (INT)" := by decide

theorem strContains_trans {hay x n : String} (h1 : strContains hay x)
    (h2 : strContains x n) : strContains hay n :=
  List.IsInfix.trans h2 h1

/-- Entry-wise congruence for schema renderings that read only the table
name and the column list. -/
theorem map_congr_skeleton (f : String × TableSchema → String)
    (hf : ∀ a b : String × TableSchema, a.1 = b.1 → a.2.columns = b.2.columns → f a = f b) :
    ∀ S T : DatabaseSchema,
      S.map (fun p => (p.1, p.2.columns)) = T.map (fun p => (p.1, p.2.columns)) →
      S.map f = T.map f := by
  intro S
  induction S with
  | nil =>
    intro T h
    cases T with
    | nil => rfl
    | cons b tl => simp at h
  | cons a tl ih =>
    intro T h
    cases T with
    | nil => simp at h
    | cons b tl2 =>
      simp only [List.map_cons, List.cons.injEq, Prod.mk.injEq] at h
      rcases h with ⟨⟨h1, h2⟩, h3⟩
      simp only [List.map_cons, List.cons.injEq]
      exact ⟨hf a b h1 h2, ih tl2 h3⟩

/-- If every per-table build succeeds, the assembled snapshot has exactly the
discovered table names as keys, in discovery order. -/
theorem buildSchemaObj_keys (env : Env) :
    ∀ (names : List String) (m : DatabaseSchema),
      buildSchemaObj env names = .ok m → m.map Prod.fst = names := by
  intro names
  induction names with
  | nil =>
    intro m h
    simp only [buildSchemaObj] at h
    cases h
    rfl
  | cons t rest ih =>
    intro m h
    simp only [buildSchemaObj, bind, Except.bind] at h
    cases hb : buildTableSchema (env.forTable t) with
    | error e => rw [hb] at h; cases h
    | ok info =>
      rw [hb] at h
      cases hr : buildSchemaObj env rest with
      | error e => rw [hr] at h; cases h
      | ok others =>
        rw [hr] at h
        cases h
        simp [ih others hr]

/-- Every status the source's `HTTP_ERROR_MAP` knows is one of its seven
literal keys. -/
theorem httpErrorMap_cases (s : Nat) :
    httpErrorMap s = none ∨ s = 400 ∨ s = 401 ∨ s = 403 ∨ s = 429 ∨ s = 500 ∨ s = 502 ∨ s = 503 := by
  unfold httpErrorMap
  split
  · exact Or.inr (Or.inl rfl)
  · exact Or.inr (Or.inr (Or.inl rfl))
  · exact Or.inr (Or.inr (Or.inr (Or.inl rfl)))
  · exact Or.inr (Or.inr (Or.inr (Or.inr (Or.inl rfl))))
  · exact Or.inr (Or.inr (Or.inr (Or.inr (Or.inr (Or.inl rfl)))))
  · exact Or.inr (Or.inr (Or.inr (Or.inr (Or.inr (Or.inr (Or.inl rfl))))))
  · exact Or.inr (Or.inr (Or.inr (Or.inr (Or.inr (Or.inr (Or.inr rfl))))))
  · exact Or.inl rfl

/-!
## Claims
-/

/-- Claim C5: serializing an empty snapshot (a snapshot with no tables)
yields exactly the empty string `""`, for either value of the
`includeDetails` flag. -/
theorem c5_empty_snapshot_serializes_to_empty (includeDetails : Bool) :
    buildSchemaDescription [] includeDetails = "" := rfl

/-- Claim C7: the API-error parser maps 400 to `BAD_REQUEST` with
`recoverable = false`, 401 and 403 to `AUTH`, 429 to `RATE_LIMIT`, every
5xx and every status outside the fixed table to `API_ERROR` with
`recoverable = true`, and always returns the structured
`{code, message, technical?, recoverable}` record (carrying the technical
text through), never the raw status. -/
theorem c7_parse_api_error_taxonomy (s : Nat) (t : Option String) :
    (parseApiError 400 t).code = .BAD_REQUEST ∧ (parseApiError 400 t).recoverable = false
    ∧ (parseApiError 401 t).code = .AUTH ∧ (parseApiError 403 t).code = .AUTH
    ∧ (parseApiError 429 t).code = .RATE_LIMIT
    ∧ (500 ≤ s ∧ s ≤ 599 →
        (parseApiError s t).code = .API_ERROR ∧ (parseApiError s t).recoverable = true)
    ∧ (httpErrorMap s = none →
        (parseApiError s t).code = .API_ERROR ∧ (parseApiError s t).recoverable = true)
    ∧ (parseApiError s t).technical = t := by
  refine ⟨rfl, rfl, rfl, rfl, rfl, ?_, ?_, ?_⟩
  · rintro ⟨h1, h2⟩
    rcases httpErrorMap_cases s with h | h | h | h | h | h | h | h
    · unfold parseApiError
      rw [h]
      exact ⟨rfl, rfl⟩
    all_goals subst h
    · omega
    · omega
    · omega
    · omega
    · exact ⟨rfl, rfl⟩
    · exact ⟨rfl, rfl⟩
    · exact ⟨rfl, rfl⟩
  · intro h
    unfold parseApiError
    rw [h]
    exact ⟨rfl, rfl⟩
  · unfold parseApiError
    rcases httpErrorMap s with _ | ⟨c, m, r⟩ <;> rfl

/-- Witness for C7 at concrete statuses: 504 is an unmapped 5xx status and
maps to a recoverable `API_ERROR`; 404 is unrecognized and does too. -/
theorem c7_parse_api_error_witness :
    ((parseApiError 504 none).code = .API_ERROR ∧ (parseApiError 504 none).recoverable = true)
    ∧ ((parseApiError 404 none).code = .API_ERROR ∧ (parseApiError 404 none).recoverable = true) :=
  ⟨(c7_parse_api_error_taxonomy 504 none).2.2.2.2.2.1 (by omega),
   (c7_parse_api_error_taxonomy 404 none).2.2.2.2.2.2.1 rfl⟩

/-- Claim C10: the assistant message `handleSubmit` appends carries a `sql`
field exactly when the classified reply is non-empty and free of the
`CLARIFY:`/`CHAT:` markers (and then the field is the reply itself, marked
un-executed); an empty reply yields the fixed conversational message
"I understand. How can I help you with your data?" with no `sql` field, so
an empty reply is never offered for execution. -/
theorem c10_empty_reply_not_executable (s : String) :
    ((assistantMessageFor s).sql.isSome
      = (!(s == "") && !strStartsWith s "CLARIFY:" && !strStartsWith s "CHAT:"))
    ∧ ((!(s == "") && !strStartsWith s "CLARIFY:" && !strStartsWith s "CHAT:") = true →
        assistantMessageFor s =
          { role := "assistant", content := "Generated SQL query. Click \"Run\" to execute it.",
            sql := some s, sqlExecuted := some false })
    ∧ assistantMessageFor "" =
        { role := "assistant", content := emptyReplyContent, sql := none, sqlExecuted := none } := by
  refine ⟨?_, ?_, by decide⟩
  · unfold assistantMessageFor
    cases h : (s == "" || strStartsWith s "CLARIFY:" || strStartsWith s "CHAT:") with
    | true =>
      simp only [h, if_true]
      simp only [Bool.or_eq_true] at h
      rcases h with h | h
      · rcases h with h | h <;> simp [h]
      · simp [h]
    | false =>
      simp only [h, if_false]
      simp only [Bool.or_eq_false_iff] at h
      simp [h.1.1, h.1.2, h.2]
  · intro h
    simp only [Bool.and_eq_true, Bool.not_eq_true'] at h
    rcases h with ⟨⟨h1, h2⟩, h3⟩
    unfold assistantMessageFor
    simp [h1, h2, h3]
    exact beq_eq_false_iff_ne.mp h1

/-- Claim C1: for a non-empty snapshot, the generate-SQL user message
contains the literal `"DATABASE SCHEMA:"`, is that header followed by the
serialized schema, and ends with `"QUESTION: "` concatenated with the
question; for an empty snapshot the user message is exactly the question,
with no schema header. -/
theorem c1_generate_sql_user_message (question : String) (schema : DatabaseSchema) :
    (schema ≠ [] →
      strContains (buildUserMessage question schema) "DATABASE SCHEMA:"
      ∧ (∃ tail : String, buildUserMessage question schema
          = "DATABASE SCHEMA:\n" ++ buildSchemaDescription schema true ++ tail)
      ∧ strEndsWith (buildUserMessage question schema) ("QUESTION: " ++ question))
    ∧ (schema = [] → buildUserMessage question schema = question) := by
  constructor
  · intro hne
    have hlen : ¬schema.length = 0 := by
      simp only [List.length_eq_zero]
      exact hne
    unfold buildUserMessage
    rw [if_neg hlen]
    have hsplit1 : ("DATABASE SCHEMA:\n" : String).data
        = ("DATABASE SCHEMA:" : String).data ++ ("\n" : String).data := by decide
    have hsplit2 : ("\n\nQUESTION: " : String).data
        = ("\n\n" : String).data ++ ("QUESTION: " : String).data := by decide
    refine ⟨?_, ?_, ?_⟩
    · refine strContains_of_eq []
        (("\n" : String).data ++ (buildSchemaDescription schema true).data
          ++ ("\n\nQUESTION: " : String).data ++ question.data) ?_
      simp [strData_append, hsplit1]
    · exact ⟨"\n\nQUESTION: " ++ question, by rw [strAppend_assoc, strAppend_assoc]⟩
    · refine ⟨("DATABASE SCHEMA:\n" : String).data
        ++ (buildSchemaDescription schema true).data ++ ("\n\n" : String).data, ?_⟩
      simp [strData_append, hsplit2]
  · intro he
    subst he
    rfl

/-- Witness for C1 on a one-table snapshot and the question `"q"`. -/
theorem c1_generate_sql_user_message_witness :
    strContains (buildUserMessage "q" [("t", ⟨[⟨"c", "INT"⟩], [], []⟩)]) "DATABASE SCHEMA:"
    ∧ (∃ tail : String, buildUserMessage "q" [("t", ⟨[⟨"c", "INT"⟩], [], []⟩)]
        = "DATABASE SCHEMA:\n"
          ++ buildSchemaDescription [("t", ⟨[⟨"c", "INT"⟩], [], []⟩)] true ++ tail)
    ∧ strEndsWith (buildUserMessage "q" [("t", ⟨[⟨"c", "INT"⟩], [], []⟩)]) ("QUESTION: " ++ "q") :=
  (c1_generate_sql_user_message "q" [("t", ⟨[⟨"c", "INT"⟩], [], []⟩)]).1 (by simp)

/-- Claim C8: the fix-SQL user message contains the original question, the
failing SQL and the raw engine error text verbatim, and for every table its
column-only rendering `Table "name": col (TYPE), ...`; that rendering reads
only table names and columns, so no sample rows or statistics enter the
message. -/
theorem c8_fix_sql_user_message (sql error question : String) (schema : DatabaseSchema) :
    strContains (fixSqlUserContent sql error question schema) question
    ∧ strContains (fixSqlUserContent sql error question schema) sql
    ∧ strContains (fixSqlUserContent sql error question schema) error
    ∧ (∀ p ∈ schema,
        strContains (fixSqlUserContent sql error question schema) (fixSqlEntryDescription p)
        ∧ ∀ c ∈ p.2.columns,
            strContains (fixSqlUserContent sql error question schema) (columnPair c))
    ∧ (∀ T : DatabaseSchema,
        schema.map (fun p => (p.1, p.2.columns)) = T.map (fun p => (p.1, p.2.columns)) →
        fixSqlSchemaDesc schema = fixSqlSchemaDesc T) := by
  have hdesc : strContains (fixSqlUserContent sql error question schema)
      (fixSqlSchemaDesc schema) := by
    refine strContains_of_eq ("Database Schema:\n" : String).data
      (("\n\nOriginal Natural Language Intent: " : String).data ++ question.data
        ++ ("\n\nFailing SQL Query:\n" : String).data ++ sql.data
        ++ ("\n\nDuckDB Error Message:\n" : String).data ++ error.data) ?_
    simp [fixSqlUserContent, strData_append]
  refine ⟨?_, ?_, ?_, ?_, ?_⟩
  · refine strContains_of_eq
      (("Database Schema:\n" : String).data ++ (fixSqlSchemaDesc schema).data
        ++ ("\n\nOriginal Natural Language Intent: " : String).data)
      (("\n\nFailing SQL Query:\n" : String).data ++ sql.data
        ++ ("\n\nDuckDB Error Message:\n" : String).data ++ error.data) ?_
    simp [fixSqlUserContent, strData_append]
  · refine strContains_of_eq
      (("Database Schema:\n" : String).data ++ (fixSqlSchemaDesc schema).data
        ++ ("\n\nOriginal Natural Language Intent: " : String).data ++ question.data
        ++ ("\n\nFailing SQL Query:\n" : String).data)
      (("\n\nDuckDB Error Message:\n" : String).data ++ error.data) ?_
    simp [fixSqlUserContent, strData_append]
  · refine strContains_of_eq
      (("Database Schema:\n" : String).data ++ (fixSqlSchemaDesc schema).data
        ++ ("\n\nOriginal Natural Language Intent: " : String).data ++ question.data
        ++ ("\n\nFailing SQL Query:\n" : String).data ++ sql.data
        ++ ("\n\nDuckDB Error Message:\n" : String).data) [] ?_
    simp [fixSqlUserContent, strData_append]
  · intro p hp
    have hentry : strContains (fixSqlSchemaDesc schema) (fixSqlEntryDescription p) :=
      joinSep_contains "\n" _ _ (List.mem_map_of_mem fixSqlEntryDescription hp)
    have hentry2 : strContains (fixSqlUserContent sql error question schema)
        (fixSqlEntryDescription p) := strContains_trans hdesc hentry
    refine ⟨hentry2, ?_⟩
    intro c hc
    have hcols : strContains (joinSep ", " (p.2.columns.map columnPair)) (columnPair c) :=
      joinSep_contains ", " _ _ (List.mem_map_of_mem columnPair hc)
    have hpair : strContains (fixSqlEntryDescription p) (columnPair c) := by
      refine strContains_trans ?_ hcols
      refine strContains_of_eq ("Table \"" ++ p.1 ++ "\": " : String).data [] ?_
      simp [fixSqlEntryDescription, strData_append]
    exact strContains_trans hentry2 hpair
  · intro T hT
    unfold fixSqlSchemaDesc
    refine congrArg (joinSep "\n") ?_
    refine map_congr_skeleton fixSqlEntryDescription ?_ schema T hT
    intro a b h1 h2
    unfold fixSqlEntryDescription
    rw [h1, h2]

/-- Witness for C8 on a one-table snapshot with one column and non-trivial
sql, error and question strings. -/
theorem c8_fix_sql_user_message_witness :
    strContains
      (fixSqlUserContent "SELECT x FROM t" "Binder Error: x not found" "count rows"
        [("t", ⟨[⟨"c", "INT"⟩], [], []⟩)])
      "Binder Error: x not found"
    ∧ strContains
      (fixSqlUserContent "SELECT x FROM t" "Binder Error: x not found" "count rows"
        [("t", ⟨[⟨"c", "INT"⟩], [], []⟩)])
      (fixSqlEntryDescription ("t", ⟨[⟨"c", "INT"⟩], [], []⟩)) := by
  have h := c8_fix_sql_user_message "SELECT x FROM t" "Binder Error: x not found" "count rows"
    [("t", ⟨[⟨"c", "INT"⟩], [], []⟩)]
  exact ⟨h.2.2.1, (h.2.2.2.1 ("t", ⟨[⟨"c", "INT"⟩], [], []⟩) (by simp)).1⟩

/-- Claim C4 (amended): the detailed serialization of a snapshot contains
every table name and every `name (TYPE)` column pair; and the serialization
without details is computed from the table names and column lists alone —
it is invariant under any change to samples and statistics — so sample or
statistics JSON can appear in it only where that very text already occurs in
a table name or a column name/type. -/
theorem c4_schema_serialization (S : DatabaseSchema) :
    (∀ p ∈ S,
      strContains (buildSchemaDescription S true) p.1
      ∧ ∀ c ∈ p.2.columns, strContains (buildSchemaDescription S true) (columnPair c))
    ∧ (∀ T : DatabaseSchema,
        S.map (fun p => (p.1, p.2.columns)) = T.map (fun p => (p.1, p.2.columns)) →
        buildSchemaDescription S false = buildSchemaDescription T false) := by
  constructor
  · intro p hp
    have hentry : strContains (buildSchemaDescription S true) (schemaEntryDescription true p) :=
      joinSep_contains "\n\n" _ _ (List.mem_map_of_mem (schemaEntryDescription true) hp)
    have hcolsblock : strContains (schemaEntryDescription true p)
        (joinSep ", " (p.2.columns.map columnPair)) := by
      refine strContains_of_eq ("Table \"" ++ p.1 ++ "\": " : String).data
        (("\nSamples: " ++ safeJsonForApi (samplesJs p.2.samples)
          ++ "\nStats: " ++ safeJsonForApi (statsJs p.2.stats) : String).data) ?_
      simp [schemaEntryDescription, strData_append]
    constructor
    · refine strContains_trans hentry ?_
      refine strContains_of_eq ("Table \"" : String).data
        (("\": " ++ joinSep ", " (p.2.columns.map columnPair)
          ++ "\nSamples: " ++ safeJsonForApi (samplesJs p.2.samples)
          ++ "\nStats: " ++ safeJsonForApi (statsJs p.2.stats) : String).data) ?_
      simp [schemaEntryDescription, strData_append]
    · intro c hc
      have hpair : strContains (joinSep ", " (p.2.columns.map columnPair)) (columnPair c) :=
        joinSep_contains ", " _ _ (List.mem_map_of_mem columnPair hc)
      exact strContains_trans hentry (strContains_trans hcolsblock hpair)
  · intro T hT
    unfold buildSchemaDescription
    refine congrArg (joinSep "\n\n") ?_
    refine map_congr_skeleton (schemaEntryDescription false) ?_ S T hT
    intro a b h1 h2
    simp [schemaEntryDescription, h1, h2]

/-- Witness for C4 on a one-table snapshot with a sample row and a column. -/
theorem c4_schema_serialization_witness :
    strContains
      (buildSchemaDescription [("t", ⟨[⟨"c", "INT"⟩], [JsFields.cons "c" (.vnum 1) .nil], []⟩)] true)
      "t"
    ∧ strContains
      (buildSchemaDescription [("t", ⟨[⟨"c", "INT"⟩], [JsFields.cons "c" (.vnum 1) .nil], []⟩)] true)
      (columnPair ⟨"c", "INT"⟩) := by
  have h := (c4_schema_serialization
    [("t", ⟨[⟨"c", "INT"⟩], [JsFields.cons "c" (.vnum 1) .nil], []⟩)]).1
    ("t", ⟨[⟨"c", "INT"⟩], [JsFields.cons "c" (.vnum 1) .nil], []⟩) (by simp)
  exact ⟨h.1, h.2 ⟨"c", "INT"⟩ (by simp)⟩

/-- Counterexample to C4 as stated: for the snapshot whose single table is
named `t[{"a":1}]` (with one sample row `{"a":1}`), the detailed
serialization contains the sample-row JSON fragment `[{"a":1}]`, and the
serialization without details contains that very fragment too (inside the
table name), so it does not hold that the detail-free serialization contains
none of the sample-row JSON fragments of the detailed one. -/
theorem c4_schema_serialization_counterexample :
    strContains
      (buildSchemaDescription
        [("t[\x7b\"a\":1\x7d]", ⟨[⟨"a", "INT"⟩], [JsFields.cons "a" (.vnum 1) .nil], []⟩)] true)
      (safeJsonForApi (samplesJs [JsFields.cons "a" (.vnum 1) .nil]))
    ∧ strContains
      (buildSchemaDescription
        [("t[\x7b\"a\":1\x7d]", ⟨[⟨"a", "INT"⟩], [JsFields.cons "a" (.vnum 1) .nil], []⟩)] false)
      (safeJsonForApi (samplesJs [JsFields.cons "a" (.vnum 1) .nil])) := by
  constructor
  · decide
  · decide

/-- Claim C2: a schema refresh publishes a new snapshot only when the
queries for every discovered table succeeded, and then the published
snapshot covers exactly the discovered tables in discovery order; if the
table listing or any per-table query fails, the previously published
snapshot stays current, so consumers never observe a snapshot covering only
a strict subset of the tables being refreshed. -/
theorem c2_refresh_publishes_whole_snapshot (env : Env) (st : DuckState) :
    (∀ e, env.listTables = .error e → (refreshSchema env st).schema = st.schema)
    ∧ (∀ names e, env.listTables = .ok names → buildSchemaObj env names = .error e →
        (refreshSchema env st).schema = st.schema)
    ∧ (∀ names m, env.listTables = .ok names → buildSchemaObj env names = .ok m →
        (refreshSchema env st).schema = m ∧ m.map Prod.fst = names) := by
  refine ⟨?_, ?_, ?_⟩
  · intro e h
    simp [refreshSchema, h]
  · intro names e h1 h2
    simp [refreshSchema, h1, h2]
  · intro names m h1 h2
    simp [refreshSchema, h1, h2]
    exact buildSchemaObj_keys env names m h2

/-- A connection whose table listing succeeds with one table `t1` whose
`DESCRIBE` then fails — the failure scenario of C2/C9. -/
def envDescribeFails : Env :=
  { listTables := .ok ["t1"],
    forTable := fun _ =>
      { describeQ := .error "Catalog Error: Table with name t1 does not exist!",
        sampleQ := .ok [], summarizeQ := .ok [] } }

/-- A previously published state with one table `old`. -/
def stOld : DuckState :=
  { tables := ["old"], schema := [("old", ⟨[⟨"c", "INT"⟩], [], []⟩)], schemaLoading := true }

/-- Witness for C2: with `envDescribeFails` the refresh leaves the
previously published snapshot in place. -/
theorem c2_refresh_publishes_whole_snapshot_witness :
    (refreshSchema envDescribeFails stOld).schema = stOld.schema :=
  (c2_refresh_publishes_whole_snapshot envDescribeFails stOld).2.1 ["t1"]
    "Catalog Error: Table with name t1 does not exist!" rfl rfl

/-- Claim C9: when the table listing succeeds but a per-table query fails,
the exposed `tables` list has already been replaced with the freshly
discovered names while the exposed `schema` map keeps its previous value, so
after a failed refresh the two exposed states can name different sets of
tables. -/
theorem c9_failed_refresh_tables_schema_mismatch (env : Env) (st : DuckState)
    (names : List String) (e : String)
    (h1 : env.listTables = .ok names) (h2 : buildSchemaObj env names = .error e) :
    (refreshSchema env st).tables = names
    ∧ (refreshSchema env st).schema = st.schema
    ∧ (st.schema.map Prod.fst ≠ names →
        (refreshSchema env st).tables ≠ (refreshSchema env st).schema.map Prod.fst) := by
  have htab : (refreshSchema env st).tables = names := by
    simp [refreshSchema, h1, h2]
  have hsch : (refreshSchema env st).schema = st.schema := by
    simp [refreshSchema, h1, h2]
  refine ⟨htab, hsch, ?_⟩
  intro hdiff
  rw [htab, hsch]
  exact fun h => hdiff h.symm

/-- Witness for C9: concretely, after the failed refresh the exposed tables
list is `["t1"]` while the exposed schema still names only `old`. -/
theorem c9_failed_refresh_tables_schema_mismatch_witness :
    (refreshSchema envDescribeFails stOld).tables = ["t1"]
    ∧ (refreshSchema envDescribeFails stOld).schema = stOld.schema
    ∧ (refreshSchema envDescribeFails stOld).tables
        ≠ (refreshSchema envDescribeFails stOld).schema.map Prod.fst := by
  have h := c9_failed_refresh_tables_schema_mismatch envDescribeFails stOld ["t1"]
    "Catalog Error: Table with name t1 does not exist!" rfl rfl
  exact ⟨h.1, h.2.1, h.2.2 (by decide)⟩

/-!
## BigInt-conversion properties (claim C6)
-/

mutual

/-- No `BigInt` occurs anywhere in the value. -/
def noBigs : JsValue → Bool
  | .vbig _ => false
  | .varr xs => noBigsList xs
  | .vobj fs => noBigsFields fs
  | .vnull => true
  | .vbool _ => true
  | .vnum _ => true
  | .vstr _ => true

def noBigsList : JsList → Bool
  | .nil => true
  | .cons v vs => noBigs v && noBigsList vs

def noBigsFields : JsFields → Bool
  | .nil => true
  | .cons _ v fs => noBigs v && noBigsFields fs

end

mutual

/-- Every plain number occurring in the value is a safe integer. -/
def safeNums : JsValue → Bool
  | .vnum n => jsIsSafeInteger n
  | .varr xs => safeNumsList xs
  | .vobj fs => safeNumsFields fs
  | .vnull => true
  | .vbool _ => true
  | .vstr _ => true
  | .vbig _ => true

def safeNumsList : JsList → Bool
  | .nil => true
  | .cons v vs => safeNums v && safeNumsList vs

def safeNumsFields : JsFields → Bool
  | .nil => true
  | .cons _ v fs => safeNums v && safeNumsFields fs

end

theorem bitLenAux_zero (fuel : Nat) : bitLenAux fuel 0 = 0 := by
  cases fuel <;> simp [bitLenAux]

/-- With enough fuel, `bitLenAux` brackets `n` between consecutive powers of
two. -/
theorem bitLenAux_bounds :
    ∀ (fuel n : Nat), 0 < n → n ≤ fuel →
      2 ^ (bitLenAux fuel n - 1) ≤ n ∧ n < 2 ^ bitLenAux fuel n := by
  intro fuel
  induction fuel with
  | zero => intro n h1 h2; omega
  | succ f ih =>
    intro n h1 h2
    have hne : ¬n = 0 := by omega
    simp only [bitLenAux, hne, if_false]
    by_cases hone : n = 1
    · subst hone
      norm_num [bitLenAux_zero]
    · have hge2 : 2 ≤ n := by omega
      have hdpos : 0 < n / 2 := Nat.div_pos hge2 (by norm_num)
      have hdlt : n / 2 < n := Nat.div_lt_self h1 (by norm_num)
      have hdle : n / 2 ≤ f := by omega
      obtain ⟨hl, hr⟩ := ih (n / 2) hdpos hdle
      have hLpos : 0 < bitLenAux f (n / 2) := by
        by_contra hc
        have : bitLenAux f (n / 2) = 0 := by omega
        rw [this] at hr
        simp at hr
        omega
      set L := bitLenAux f (n / 2) with hL
      have hpowL : 2 ^ L = 2 * 2 ^ (L - 1) := by
        conv_lhs => rw [show L = (L - 1) + 1 by omega]
        rw [pow_succ]
        ring
      have hpowL1 : 2 ^ (L + 1) = 2 * 2 ^ L := by
        rw [pow_succ]
        ring
      have hmod : n = 2 * (n / 2) + n % 2 := (Nat.div_add_mod n 2).symm ▸ by omega
      have hm2 : n % 2 < 2 := Nat.mod_lt n (by norm_num)
      constructor
      · calc 2 ^ (L + 1 - 1) = 2 * 2 ^ (L - 1) := by
              rw [Nat.add_sub_cancel, hpowL]
          _ ≤ 2 * (n / 2) := by omega
          _ ≤ n := by omega
      · calc n = 2 * (n / 2) + n % 2 := hmod
          _ < 2 * 2 ^ L := by omega
          _ = 2 ^ (L + 1) := hpowL1.symm

theorem jsNumberOfBigInt_small (b : Int) (h : b.natAbs ≤ 2 ^ 53) :
    jsNumberOfBigInt b = b := by
  unfold jsNumberOfBigInt
  rw [if_pos h]

/-- A `BigInt` beyond the safe-integer range never rounds to a safe
integer: `Number.isSafeInteger(Number(b))` is `false` there. -/
theorem jsNumberOfBigInt_unsafe (b : Int) (h : maxSafeInteger < b.natAbs) :
    jsIsSafeInteger (jsNumberOfBigInt b) = false := by
  unfold maxSafeInteger at h
  by_cases hsmall : b.natAbs ≤ 2 ^ 53
  · rw [jsNumberOfBigInt_small b hsmall]
    simp only [jsIsSafeInteger, maxSafeInteger, decide_eq_false_iff_not]
    omega
  · push_neg at hsmall
    unfold jsNumberOfBigInt
    rw [if_neg (by omega)]
    simp only []
    set n := b.natAbs with hn
    obtain ⟨hl0, hr0⟩ := bitLenAux_bounds n n (by omega) le_rfl
    have hl : 2 ^ (bitLen n - 1) ≤ n := hl0
    have hr : n < 2 ^ bitLen n := hr0
    have hbl : 54 ≤ bitLen n := by
      by_contra hc
      push_neg at hc
      have hpow : (2 : Nat) ^ bitLen n ≤ 2 ^ 53 :=
        Nat.pow_le_pow_right (by norm_num) (by omega)
      omega
    set e := bitLen n - 53 with he
    have he1 : 1 ≤ e := by omega
    have hele : e ≤ bitLen n - 1 := by omega
    have hdiv : 2 ^ (bitLen n - 1) / 2 ^ e = 2 ^ 52 := by
      rw [Nat.pow_div hele (by norm_num)]
      congr 1
      omega
    have hq : 2 ^ 52 ≤ n / 2 ^ e := by
      calc 2 ^ 52 = 2 ^ (bitLen n - 1) / 2 ^ e := hdiv.symm
        _ ≤ n / 2 ^ e := Nat.div_le_div_right hl
    have hq2 : n / 2 ^ e
        ≤ (if 2 ^ e < 2 * (n % 2 ^ e) ∨ (2 * (n % 2 ^ e) = 2 ^ e ∧ n / 2 ^ e % 2 = 1)
            then n / 2 ^ e + 1 else n / 2 ^ e) := by
      split <;> omega
    have hpe : 2 ≤ 2 ^ e := by
      calc (2 : Nat) = 2 ^ 1 := (pow_one 2).symm
        _ ≤ 2 ^ e := Nat.pow_le_pow_right (by norm_num) he1
    have hm : 2 ^ 53 ≤ (if 2 ^ e < 2 * (n % 2 ^ e) ∨ (2 * (n % 2 ^ e) = 2 ^ e ∧ n / 2 ^ e % 2 = 1)
        then n / 2 ^ e + 1 else n / 2 ^ e) * 2 ^ e := by
      have h52 : (2 : Nat) ^ 53 = 2 ^ 52 * 2 := by
        rw [← pow_succ]
      calc (2 : Nat) ^ 53 = 2 ^ 52 * 2 := h52
        _ ≤ (n / 2 ^ e) * 2 ^ e := Nat.mul_le_mul hq hpe
        _ ≤ _ := Nat.mul_le_mul_right _ hq2
    simp only [jsIsSafeInteger, maxSafeInteger, decide_eq_false_iff_not]
    split
    · rw [Int.natAbs_neg, Int.natAbs_ofNat]
      intro hcon
      exact absurd (le_trans hm hcon) (by norm_num)
    · rw [Int.natAbs_ofNat]
      intro hcon
      exact absurd (le_trans hm hcon) (by norm_num)

mutual

theorem noBigs_convert : ∀ v : JsValue, noBigs (convertBigIntToNumber v) = true
  | .vbig b => by
    simp only [convertBigIntToNumber]
    by_cases h : jsIsSafeInteger (jsNumberOfBigInt b) <;> simp [h, noBigs]
  | .varr xs => by simp [convertBigIntToNumber, noBigs, noBigsList_convert xs]
  | .vobj fs => by simp [convertBigIntToNumber, noBigs, noBigsFields_convert fs]
  | .vnull => rfl
  | .vbool _ => rfl
  | .vnum _ => rfl
  | .vstr _ => rfl

theorem noBigsList_convert : ∀ xs : JsList, noBigsList (convertBigIntList xs) = true
  | .nil => rfl
  | .cons v vs => by
    simp [convertBigIntList, noBigsList, noBigs_convert v, noBigsList_convert vs]

theorem noBigsFields_convert : ∀ fs : JsFields, noBigsFields (convertBigIntFields fs) = true
  | .nil => rfl
  | .cons k v fs => by
    simp [convertBigIntFields, noBigsFields, noBigs_convert v, noBigsFields_convert fs]

end

mutual

theorem safeNums_convert :
    ∀ v : JsValue, safeNums v = true → safeNums (convertBigIntToNumber v) = true
  | .vbig b => fun _ => by
    simp only [convertBigIntToNumber]
    by_cases h : jsIsSafeInteger (jsNumberOfBigInt b) <;> simp [h, safeNums]
  | .varr xs => fun h => by
    simp only [safeNums] at h
    simp [convertBigIntToNumber, safeNums, safeNumsList_convert xs h]
  | .vobj fs => fun h => by
    simp only [safeNums] at h
    simp [convertBigIntToNumber, safeNums, safeNumsFields_convert fs h]
  | .vnull => fun h => h
  | .vbool _ => fun h => h
  | .vnum _ => fun h => h
  | .vstr _ => fun h => h

theorem safeNumsList_convert :
    ∀ xs : JsList, safeNumsList xs = true → safeNumsList (convertBigIntList xs) = true
  | .nil => fun h => h
  | .cons v vs => fun h => by
    simp only [safeNumsList, Bool.and_eq_true] at h
    simp [convertBigIntList, safeNumsList, safeNums_convert v h.1, safeNumsList_convert vs h.2]

theorem safeNumsFields_convert :
    ∀ fs : JsFields, safeNumsFields fs = true → safeNumsFields (convertBigIntFields fs) = true
  | .nil => fun h => h
  | .cons k v fs => fun h => by
    simp only [safeNumsFields, Bool.and_eq_true] at h
    simp [convertBigIntFields, safeNumsFields, safeNums_convert v h.1,
      safeNumsFields_convert fs h.2]

end

mutual

/-- On a `BigInt`-free value, `JSON.stringify` never throws. -/
theorem jsonStringify_isSome :
    ∀ v : JsValue, noBigs v = true → (jsonStringify v).isSome = true
  | .vnull => fun _ => rfl
  | .vbool true => fun _ => rfl
  | .vbool false => fun _ => rfl
  | .vnum _ => fun _ => rfl
  | .vstr _ => fun _ => rfl
  | .vbig _ => fun h => by simp [noBigs] at h
  | .varr xs => fun h => by
    simp only [noBigs] at h
    have := jsonStringifyList_isSome xs h
    simp only [jsonStringify, bind, Option.bind]
    cases hx : jsonStringifyList xs with
    | none => rw [hx] at this; simp at this
    | some parts => simp
  | .vobj fs => fun h => by
    simp only [noBigs] at h
    have := jsonStringifyFields_isSome fs h
    simp only [jsonStringify, bind, Option.bind]
    cases hx : jsonStringifyFields fs with
    | none => rw [hx] at this; simp at this
    | some parts => simp

theorem jsonStringifyList_isSome :
    ∀ xs : JsList, noBigsList xs = true → (jsonStringifyList xs).isSome = true
  | .nil => fun _ => rfl
  | .cons v vs => fun h => by
    simp only [noBigsList, Bool.and_eq_true] at h
    have h1 := jsonStringify_isSome v h.1
    have h2 := jsonStringifyList_isSome vs h.2
    simp only [jsonStringifyList, bind, Option.bind]
    cases hv : jsonStringify v with
    | none => rw [hv] at h1; simp at h1
    | some s =>
      cases hvs : jsonStringifyList vs with
      | none => rw [hvs] at h2; simp at h2
      | some rest => simp

theorem jsonStringifyFields_isSome :
    ∀ fs : JsFields, noBigsFields fs = true → (jsonStringifyFields fs).isSome = true
  | .nil => fun _ => rfl
  | .cons k v fs => fun h => by
    simp only [noBigsFields, Bool.and_eq_true] at h
    have h1 := jsonStringify_isSome v h.1
    have h2 := jsonStringifyFields_isSome fs h.2
    simp only [jsonStringifyFields, bind, Option.bind]
    cases hv : jsonStringify v with
    | none => rw [hv] at h1; simp at h1
    | some s =>
      cases hfs : jsonStringifyFields fs with
      | none => rw [hfs] at h2; simp at h2
      | some rest => simp

end

/-- Claim C6: the BigInt conversion used before JSON encoding maps each
`BigInt` within the safe-integer range to the exactly equal number and each
one outside it to its decimal string, recursively through arrays and
objects; hence conversion is lossless, the converted value holds no unsafe
integer number (when the input's plain numbers were safe) and no `BigInt` at
all, so the JSON text subsequently produced never carries an integer
literal outside the safe-integer range and `JSON.stringify` never throws. -/
theorem c6_bigint_conversion_lossless :
    (∀ b : Int, b.natAbs ≤ maxSafeInteger →
      convertBigIntToNumber (.vbig b) = .vnum b)
    ∧ (∀ b : Int, maxSafeInteger < b.natAbs →
      convertBigIntToNumber (.vbig b) = .vstr (toString b))
    ∧ (∀ v : JsValue, safeNums v = true → safeNums (convertBigIntToNumber v) = true)
    ∧ (∀ v : JsValue, noBigs (convertBigIntToNumber v) = true
        ∧ (jsonStringify (convertBigIntToNumber v)).isSome = true) := by
  refine ⟨?_, ?_, safeNums_convert, ?_⟩
  · intro b hb
    have hsmall : b.natAbs ≤ 2 ^ 53 := by
      unfold maxSafeInteger at hb
      omega
    have hsafe : jsIsSafeInteger b = true := by
      simp only [jsIsSafeInteger, decide_eq_true_eq]
      exact hb
    simp only [convertBigIntToNumber, jsNumberOfBigInt_small b hsmall, hsafe, if_true]
  · intro b hb
    have hunsafe := jsNumberOfBigInt_unsafe b hb
    simp only [convertBigIntToNumber, hunsafe]
    simp
  · intro v
    exact ⟨noBigs_convert v, jsonStringify_isSome _ (noBigs_convert v)⟩

/-- Witness for C6: `42` converts to the number `42`; `2^53` (just outside
the safe range) converts to its decimal string; a nested array keeps its
numbers safe and BigInt-free. -/
theorem c6_bigint_conversion_lossless_witness :
    convertBigIntToNumber (.vbig 42) = .vnum 42
    ∧ convertBigIntToNumber (.vbig 9007199254740992) = .vstr "9007199254740992"
    ∧ safeNums (convertBigIntToNumber
        (.varr (.cons (.vbig 7) (.cons (.vobj (.cons "k" (.vnum 3) .nil)) .nil)))) = true
    ∧ noBigs (convertBigIntToNumber
        (.varr (.cons (.vbig 7) (.cons (.vobj (.cons "k" (.vnum 3) .nil)) .nil)))) = true := by
  refine ⟨c6_bigint_conversion_lossless.1 42 (by decide), ?_, ?_, ?_⟩
  · have h := c6_bigint_conversion_lossless.2.1 9007199254740992 (by decide)
    rw [h]
    decide
  · exact c6_bigint_conversion_lossless.2.2.1 _ (by decide)
  · exact (c6_bigint_conversion_lossless.2.2.2
      (.varr (.cons (.vbig 7) (.cons (.vobj (.cons "k" (.vnum 3) .nil)) .nil)))).1

/-!
## Response-classification properties (claim C3)
-/

/-- The fence regex leaves a backtick-free text unchanged. -/
theorem stripFencesAux_no_backtick : ∀ l : List Char, '`' ∉ l → stripFencesAux l = l := by
  intro l
  induction l with
  | nil => intro _; rfl
  | cons c rest ih =>
    intro h
    have hc : ¬c = '`' := fun he => h (he ▸ List.mem_cons_self c rest)
    have hrest : '`' ∉ rest := fun hm => h (List.mem_cons_of_mem c hm)
    have hr := ih hrest
    unfold stripFencesAux
    split <;> simp_all [List.mem_cons]

/-- Trimming only drops characters, so it preserves backtick-freeness. -/
theorem jsTrim_no_backtick (s : String) (h : '`' ∉ s.data) : '`' ∉ (jsTrim s).data := by
  intro hm
  apply h
  simp only [jsTrim] at hm
  rw [List.mem_reverse] at hm
  have h1 := (List.dropWhile_sublist (l := (s.data.dropWhile isJsWhitespace).reverse)
    (p := isJsWhitespace)).mem hm
  rw [List.mem_reverse] at h1
  exact (List.dropWhile_sublist (l := s.data) (p := isJsWhitespace)).mem h1

/-- On a backtick-free reply, `generateSql`'s fence stripping is a no-op. -/
theorem generateSqlOutput_no_backtick (raw : String) (h : '`' ∉ raw.data) :
    generateSqlOutput raw = jsTrim raw := by
  unfold generateSqlOutput stripFences
  rw [stripFencesAux_no_backtick _ (jsTrim_no_backtick raw h)]

/-- A string starting with a non-empty prefix is itself non-empty. -/
theorem strStartsWith_ne_empty (s p : String) (hp : p.data ≠ [])
    (h : strStartsWith s p = true) : s ≠ "" := by
  intro he
  subst he
  rcases List.isPrefixOf_iff_prefix.mp h with ⟨t, ht⟩
  have : p.data = [] := by
    have hlen := congrArg List.length ht
    simp at hlen
    exact List.eq_nil_of_length_eq_zero hlen.1
  exact hp this

/-- The `CLARIFY:` and `CHAT:` markers cannot both begin the same string. -/
theorem chat_not_clarify (s : String) (h : strStartsWith s "CHAT:" = true) :
    strStartsWith s "CLARIFY:" = false := by
  rcases List.isPrefixOf_iff_prefix.mp h with ⟨t, ht⟩
  by_contra hcl
  rw [Bool.not_eq_false] at hcl
  rcases List.isPrefixOf_iff_prefix.mp hcl with ⟨u, hu⟩
  have hchat : ("CHAT:" : String).data = ['C', 'H', 'A', 'T', ':'] := by decide
  have hcladata : ("CLARIFY:" : String).data = ['C', 'L', 'A', 'R', 'I', 'F', 'Y', ':'] := by
    decide
  rw [hchat] at ht
  rw [hcladata] at hu
  rw [← ht] at hu
  simp at hu

/-- Claim C3 (amended): the fence stripping of `generateSql` runs BEFORE
the marker classification of `handleSubmit`, both applied to the trimmed
reply; the marker rules (kind CLARIFY/CHAT, payload the remainder after the
marker, re-trimmed; otherwise kind SQL with the fenced markers removed)
hold of the fence-stripped text, an empty result is treated as
conversational with a fixed default message, and on any reply containing no
backtick the original trim-then-classify reading agrees; in particular
`"```sql\nSELECT 1\n```"` classifies as SQL with payload exactly
`"SELECT 1"`. -/
theorem c3_classify_reply (raw : String) :
    (strStartsWith (generateSqlOutput raw) "CLARIFY:" = true →
      classifyReply raw = (.CLARIFY, jsTrim (strDrop (generateSqlOutput raw) 8)))
    ∧ (strStartsWith (generateSqlOutput raw) "CHAT:" = true →
      classifyReply raw = (.CHAT, jsTrim (strDrop (generateSqlOutput raw) 5)))
    ∧ (generateSqlOutput raw ≠ "" →
        strStartsWith (generateSqlOutput raw) "CLARIFY:" = false →
        strStartsWith (generateSqlOutput raw) "CHAT:" = false →
        classifyReply raw = (.SQL, generateSqlOutput raw))
    ∧ (generateSqlOutput raw = "" → classifyReply raw = (.CHAT, emptyReplyContent))
    ∧ ('`' ∉ raw.data → generateSqlOutput raw = jsTrim raw)
    ∧ classifyReply "```sql\nSELECT 1\n```" = (.SQL, "SELECT 1") := by
  refine ⟨?_, ?_, ?_, ?_, generateSqlOutput_no_backtick raw, by decide⟩
  · intro hcl
    have hne : generateSqlOutput raw ≠ "" :=
      strStartsWith_ne_empty _ "CLARIFY:" (by decide) hcl
    simp [classifyReply, hne, hcl]
  · intro hch
    have hne : generateSqlOutput raw ≠ "" :=
      strStartsWith_ne_empty _ "CHAT:" (by decide) hch
    have hncl := chat_not_clarify _ hch
    simp [classifyReply, hne, hch, hncl]
  · intro hne hncl hnch
    simp [classifyReply, hne, hncl, hnch]
  · intro he
    simp [classifyReply, he]

/-- Witness for C3 on a fence-free clarification reply. -/
theorem c3_classify_reply_witness :
    classifyReply "CLARIFY: which column?" = (.CLARIFY, "which column?") := by
  have h := (c3_classify_reply "CLARIFY: which column?").1 (by decide)
  rw [h]
  decide

/-- Counterexample to C3 as stated: for the raw reply
`"```sql\nCLARIFY: which table?\n```"` the trimmed reply does not start with
`CLARIFY:` (it starts with a code fence), so the claim classifies it as SQL;
the code strips the fences first and classifies it as CLARIFY. -/
theorem c3_classify_reply_counterexample :
    strStartsWith (jsTrim "```sql\nCLARIFY: which table?\n```") "CLARIFY:" = false
    ∧ strStartsWith (jsTrim "```sql\nCLARIFY: which table?\n```") "CHAT:" = false
    ∧ (classifyReply "```sql\nCLARIFY: which table?\n```").1 ≠ ReplyKind.SQL
    ∧ classifyReply "```sql\nCLARIFY: which table?\n```"
        = (.CLARIFY, "which table?") := by decide

/-- Witness for C5 at both values of the flag. -/
theorem c5_empty_snapshot_serializes_to_empty_witness :
    buildSchemaDescription [] true = "" ∧ buildSchemaDescription [] false = "" :=
  ⟨c5_empty_snapshot_serializes_to_empty true, c5_empty_snapshot_serializes_to_empty false⟩

/-- Witness for C10: the empty reply carries no sql field, a plain SQL reply
does. -/
theorem c10_empty_reply_not_executable_witness :
    (assistantMessageFor "").sql = none
    ∧ (assistantMessageFor "SELECT 1").sql.isSome = true := by
  constructor
  · rw [(c10_empty_reply_not_executable "").2.2]
  · rw [(c10_empty_reply_not_executable "SELECT 1").1]
    decide
